import Mathlib

/-!
Verification of the Zustand todo store (src/store/todoStore.ts) and of the
state-container runtime it is built on, as described in the specification.
The domain actions (addTodo, removeTodo, toggleTodo, setFilter, clearCompleted,
fetchTodos) and the persistence projection (partialize) are translated from the
source; the store core (setState / shallow merge), the selector subscription
layer and the debounced write-behind are part of the zustand library, which is
not in this repository, and are modelled from the specification.
-/

namespace ZustandTodo

/-- A todo item, from src/store/todoStore.types.ts (interface Todo). Ids are
produced by Date.now() and are modelled as natural numbers. -/
structure Todo where
  id : Nat
  text : String
  completed : Bool
deriving DecidableEq, Repr

/-- The filter, from src/store/todoStore.types.ts (type Filter). -/
inductive Filter where
  | all
  | active
  | completed
deriving DecidableEq, Repr

/-- The data fields of the store state, from TodoState in
src/store/todoStore.types.ts. The action handles are closures over set/get and
carry no data, so they are omitted from the snapshot. -/
structure TodoState where
  todos : List Todo
  filter : Filter
  isLoading : Bool
  error : Option String
deriving DecidableEq, Repr

/-- The initial state of the initializer in todoStore.ts:
todos: [], filter: 'all', isLoading: false, error: null. -/
def initialState : TodoState :=
  { todos := [], filter := Filter.all, isLoading := false, error := none }

/-- A partial state object as passed to set: fields present in the object
overwrite the previous snapshot, absent fields are kept (JavaScript shallow
merge). -/
structure PartialState where
  todos : Option (List Todo) := none
  filter : Option Filter := none
  isLoading : Option Bool := none
  error : Option (Option String) := none

/-- Modelled from the spec: the StoreCore shallow merge used by setState with
replace=false: fields listed in the partial object win, every other field keeps
its previous value. The StoreCore itself is the zustand library, not part of
src/. -/
def shallowMerge (prev : TodoState) (p : PartialState) : TodoState :=
  { todos := p.todos.getD prev.todos
    filter := p.filter.getD prev.filter
    isLoading := p.isLoading.getD prev.isLoading
    error := p.error.getD prev.error }

/-- Models JavaScript's String.prototype.toLowerCase: lower-case every
character of the string. -/
def lowerStr (s : String) : String := String.mk (s.data.map Char.toLower)

/-- addTodo from todoStore.ts: if some existing todo has the same text
case-insensitively, warn and return without calling set; otherwise
set((state) => (\x7btodos: [...state.todos, \x7bid: Date.now(), text,
completed: false\x7d]\x7d)). The argument now stands for Date.now(). -/
def addTodo (now : Nat) (text : String) (s : TodoState) : TodoState :=
  if s.todos.any (fun t => lowerStr t.text == lowerStr text) then s
  else shallowMerge s
    { todos := some (s.todos ++ [{ id := now, text := text, completed := false }]) }

/-- removeTodo from todoStore.ts:
set((state) => (\x7btodos: state.todos.filter((t) => t.id !== id)\x7d)). -/
def removeTodo (id : Nat) (s : TodoState) : TodoState :=
  shallowMerge s { todos := some (s.todos.filter (fun t => t.id != id)) }

/-- toggleTodo from todoStore.ts:
set((state) => (\x7btodos: state.todos.map((t) => t.id === id ?
\x7b...t, completed: !t.completed\x7d : t)\x7d)). -/
def toggleTodo (id : Nat) (s : TodoState) : TodoState :=
  shallowMerge s
    { todos := some (s.todos.map (fun t =>
        if t.id == id then { t with completed := !t.completed } else t)) }

/-- The object-form update issued by setFilter in todoStore.ts: set(\x7bfilter\x7d). -/
def setFilterPartial (f : Filter) : PartialState := { filter := some f }

/-- setFilter from todoStore.ts: set(\x7bfilter\x7d), an object-form update merged
over the previous snapshot. -/
def setFilter (f : Filter) (s : TodoState) : TodoState :=
  shallowMerge s (setFilterPartial f)

/-- clearCompleted from todoStore.ts:
set((state) => (\x7btodos: state.todos.filter((t) => !t.completed)\x7d)). -/
def clearCompleted (s : TodoState) : TodoState :=
  shallowMerge s { todos := some (s.todos.filter (fun t => !t.completed)) }

/-- First set of fetchTodos in todoStore.ts: set(\x7bisLoading: true, error: null\x7d). -/
def fetchTodosStart (s : TodoState) : TodoState :=
  shallowMerge s { isLoading := some true, error := some none }

/-- Second set of fetchTodos in todoStore.ts, with the awaited promise outcome
made explicit: on resolution set(\x7btodos: fetched, isLoading: false\x7d), on
rejection set(\x7berror: errorMessage, isLoading: false\x7d). -/
def fetchTodosFinish (result : Except String (List Todo)) (s : TodoState) : TodoState :=
  match result with
  | Except.ok fetched => shallowMerge s { todos := some fetched, isLoading := some false }
  | Except.error msg => shallowMerge s { error := some (some msg), isLoading := some false }

/-- A terminating run of fetchTodos: the initial set followed by the set of the
branch taken when the awaited promise settles with the given outcome. -/
def fetchTodos (result : Except String (List Todo)) (s : TodoState) : TodoState :=
  fetchTodosFinish result (fetchTodosStart s)

/-- Modelled from the spec: a setState update is either a partial-field object
to shallow-merge, or a function of the previous snapshot; the function may
throw, modelled as Except with the thrown message as the error. The StoreCore
is the zustand library, absent from src/. -/
inductive Update where
  | obj : PartialState → Update
  | fn : (TodoState → Except String PartialState) → Update

/-- Modelled from the spec: resolve applies the update to the previous snapshot
when it is a function, else uses the object directly. -/
def resolve (u : Update) (prev : TodoState) : Except String PartialState :=
  match u with
  | Update.obj p => Except.ok p
  | Update.fn f => f prev

/-- Modelled from the spec: the store holds exactly one current snapshot; the
history field stands for the instrumentation log of completed swaps. -/
structure Store where
  state : TodoState
  history : List TodoState

/-- Modelled from the spec: getState returns the current snapshot. -/
def Store.getState (st : Store) : TodoState := st.state

/-- Modelled from the spec: setState with replace=false, the only form the
repository uses. On success the snapshot is swapped for the shallow merge of
the resolved partial over the previous snapshot; if the update function throws,
the swap does not occur and the error is returned to the caller. -/
def Store.setState (st : Store) (u : Update) : Store × Option String :=
  match resolve u st.state with
  | Except.error e => (st, some e)
  | Except.ok p =>
      let next := shallowMerge st.state p
      ({ state := next, history := st.history ++ [next] }, none)

/-- A sequence of mutations issued through setState in call order, stopping at
the first update that throws (the error propagates to the caller). -/
def runUpdates (st : Store) : List Update → Store × Option String
  | [] => (st, none)
  | u :: us =>
      match st.setState u with
      | (st2, none) => runUpdates st2 us
      | (st2, some e) => (st2, some e)

/-- The specification side of the fold claim, following the spec words: the
fold of the individual shallow-merges applied in call order over bare
snapshots, none when some update throws. -/
def foldUpdates (s : TodoState) : List Update → Option TodoState
  | [] => some s
  | u :: us =>
      match resolve u s with
      | Except.ok p => foldUpdates (shallowMerge s p) us
      | Except.error _ => none

/-- Modelled from the spec: a selector subscription entry
(selector, equalityFn, lastProjectedValue), with per-subscription memory. -/
structure Subscription (V : Type) where
  selector : TodoState → V
  eqFn : V → V → Bool
  lastValue : V

/-- Modelled from the spec: on a raw notification with the new state, project
it, compare with the cached value via the equality function; on change update
the cache and fire once; otherwise do nothing. The returned list is the list of
callback invocations of this subscription for this mutation. -/
def notifyStep {V : Type} (next : TodoState) (sub : Subscription V) :
    Subscription V × List V :=
  let v := sub.selector next
  if sub.eqFn sub.lastValue v then (sub, [])
  else ({ sub with lastValue := v }, [v])

/-- Modelled from the spec: one notification pass over the registered selector
subscriptions after a completed mutation. -/
def notifyAll {V : Type} (next : TodoState) :
    List (Subscription V) → List (Subscription V × List V)
  | [] => []
  | sub :: rest => notifyStep next sub :: notifyAll next rest

/-- The projection produced by partialize in todoStore.ts:
(state) => (\x7btodos: state.todos, filter: state.filter\x7d). It has exactly the
todos and filter fields. -/
structure PersistedPartial where
  todos : List Todo
  filter : Filter
deriving DecidableEq, Repr

/-- partialize from todoStore.ts. -/
def partialize (s : TodoState) : PersistedPartial :=
  { todos := s.todos, filter := s.filter }

/-- Modelled from the spec: rehydration shallow-merges the persisted subset
over the initializer defaults; persisted fields win, fields absent from the
subset keep their defaults. The persist middleware is the zustand library,
absent from src/. -/
def rehydrate (defaults : TodoState) (p : PersistedPartial) : TodoState :=
  { defaults with todos := p.todos, filter := p.filter }

/-- Modelled from the spec: trailing-edge debounced write-behind. Each trace
entry is a mutation time paired with the projection of the state after that
mutation, times strictly increasing. A projection is written only when no
further mutation arrives within debounceMs, and only when it differs from the
last value written; mutations arriving within debounceMs of each other are
coalesced into a single write of the latest projection. -/
def debouncedWrites (D : Nat) (last : Option PersistedPartial) :
    List (Nat × PersistedPartial) → List PersistedPartial
  | [] => []
  | [(_, p)] => if last = some p then [] else [p]
  | (t1, p1) :: (t2, p2) :: rest =>
      if t2 - t1 ≤ D then debouncedWrites D last ((t2, p2) :: rest)
      else if last = some p1 then debouncedWrites D last ((t2, p2) :: rest)
      else p1 :: debouncedWrites D (some p1) ((t2, p2) :: rest)

end ZustandTodo

namespace ZustandTodo

/-- C9: clearCompleted removes exactly the completed todos, preserves the
relative order of the remaining todos, and yields the empty list when every
todo is completed; no other state field is touched by its filter. -/
theorem C9_clearCompleted (s : TodoState) :
    (clearCompleted s).todos = s.todos.filter (fun t => !t.completed)
    ∧ List.Sublist (clearCompleted s).todos s.todos
    ∧ (∀ t : Todo, t ∈ (clearCompleted s).todos ↔ t ∈ s.todos ∧ t.completed = false)
    ∧ ((∀ t ∈ s.todos, t.completed = true) → (clearCompleted s).todos = []) := by
  refine ⟨rfl, ?_, ?_, ?_⟩
  · exact List.filter_sublist s.todos
  · intro t
    simp [clearCompleted, shallowMerge, List.mem_filter]
  · intro hall
    have : ∀ t ∈ s.todos, ¬((fun t : Todo => !t.completed) t = true) := by
      intro t ht
      simp [hall t ht]
    simpa [clearCompleted, shallowMerge] using List.filter_eq_nil_iff.mpr this

/-- Witness for C9 at a concrete all-completed state. -/
theorem C9_clearCompleted_witness :
    (clearCompleted { todos := [{ id := 1, text := "a", completed := true },
                                { id := 2, text := "b", completed := true }],
                      filter := Filter.all, isLoading := false, error := none }).todos = [] :=
  (C9_clearCompleted _).2.2.2 (by decide)

/-- C6: when some existing todo's text equals the new text case-insensitively
(whatever its completed flag), addTodo returns before calling set, so the whole
state — in particular the todos list — is unchanged and nothing is appended. -/
theorem C6_addTodo_duplicate (now : Nat) (text : String) (s : TodoState)
    (hdup : s.todos.any (fun t => lowerStr t.text == lowerStr text) = true) :
    addTodo now text s = s ∧ (addTodo now text s).todos = s.todos := by
  have h : addTodo now text s = s := by
    simp [addTodo, hdup]
  exact ⟨h, by rw [h]⟩

/-- Witness for C6: a case-insensitive duplicate with a different completed
flag leaves the state unchanged. -/
theorem C6_addTodo_duplicate_witness :
    addTodo 2 "buy milk" { todos := [{ id := 1, text := "Buy Milk", completed := true }],
                           filter := Filter.all, isLoading := false, error := none }
      = { todos := [{ id := 1, text := "Buy Milk", completed := true }],
          filter := Filter.all, isLoading := false, error := none } :=
  (C6_addTodo_duplicate 2 "buy milk" _ (by decide)).1

/-- C7: without a case-insensitive duplicate, addTodo appends exactly one todo
with the given text and completed = false at the end of the list, leaving the
pre-existing todos and the other fields unchanged; from the empty initial state
addTodo "Buy milk" yields the one-element list. -/
theorem C7_addTodo_append (now : Nat) (text : String) (s : TodoState)
    (hnew : s.todos.any (fun t => lowerStr t.text == lowerStr text) = false) :
    addTodo now text s
      = { s with todos := s.todos ++ [{ id := now, text := text, completed := false }] }
    ∧ ∀ n2 : Nat, (addTodo n2 "Buy milk" initialState).todos
        = [{ id := n2, text := "Buy milk", completed := false }] := by
  constructor
  · simp [addTodo, hnew, shallowMerge]
  · intro n2
    simp [addTodo, initialState, shallowMerge]

/-- Witness for C7: adding "Buy milk" to the empty initial state appends the
single expected todo. -/
theorem C7_addTodo_append_witness :
    addTodo 7 "Buy milk" initialState
      = { initialState with todos := [{ id := 7, text := "Buy milk", completed := false }] } := by
  have h := (C7_addTodo_append 7 "Buy milk" initialState (by decide)).1
  simpa [initialState] using h

/-- C8: toggleTodo negates the completed flag of exactly the todos whose id
matches, keeping their id and text, keeps every non-matching todo, preserves
the order and length of the list, and leaves filter, isLoading and error
unchanged. -/
theorem C8_toggleTodo (id : Nat) (s : TodoState) :
    (toggleTodo id s).todos.length = s.todos.length
    ∧ (∀ i : Nat, (toggleTodo id s).todos[i]? =
        (s.todos[i]?).map (fun t =>
          if t.id == id then { t with completed := !t.completed } else t))
    ∧ (toggleTodo id s).filter = s.filter
    ∧ (toggleTodo id s).isLoading = s.isLoading
    ∧ (toggleTodo id s).error = s.error := by
  refine ⟨?_, ?_, rfl, rfl, rfl⟩
  · simp [toggleTodo, shallowMerge]
  · intro i
    simp [toggleTodo, shallowMerge]

/-- C10: every terminating run of fetchTodos ends with isLoading = false; on
success todos is the fetched list and error is null; on failure todos is
unchanged and error is a non-null message; error = null exactly when the fetch
succeeded. -/
theorem C10_fetchTodos (result : Except String (List Todo)) (s : TodoState) :
    (fetchTodos result s).isLoading = false
    ∧ (∀ l, result = Except.ok l →
        (fetchTodos result s).todos = l ∧ (fetchTodos result s).error = none)
    ∧ (∀ m, result = Except.error m →
        (fetchTodos result s).todos = s.todos ∧ (fetchTodos result s).error = some m)
    ∧ ((fetchTodos result s).error = none ↔ ∃ l, result = Except.ok l) := by
  cases result with
  | ok l =>
      refine ⟨rfl, ?_, ?_, ?_⟩
      · intro l2 h
        cases h
        exact ⟨rfl, rfl⟩
      · intro m h
        cases h
      · simp [fetchTodos, fetchTodosStart, fetchTodosFinish, shallowMerge]
  | error m =>
      refine ⟨rfl, ?_, ?_, ?_⟩
      · intro l2 h
        cases h
      · intro m2 h
        cases h
        exact ⟨rfl, rfl⟩
      · simp [fetchTodos, fetchTodosStart, fetchTodosFinish, shallowMerge]

/-- Witness for C10 at a concrete failed fetch: todos are untouched and the
error message is recorded. -/
theorem C10_fetchTodos_witness :
    (fetchTodos (Except.error "network down") initialState).todos = initialState.todos
    ∧ (fetchTodos (Except.error "network down") initialState).error = some "network down" :=
  (C10_fetchTodos (Except.error "network down") initialState).2.2.1 "network down" rfl

/-- The state reached by a successful run of setState calls is the pure fold of
the resolved shallow-merges in call order. -/
theorem runUpdates_fold_aux (us : List Update) :
    ∀ st : Store, (runUpdates st us).2 = none →
      foldUpdates st.state us = some ((runUpdates st us).1.state) := by
  induction us with
  | nil =>
      intro st _
      rfl
  | cons u us ih =>
      intro st h
      cases hr : resolve u st.state with
      | error e =>
          have hset : st.setState u = (st, some e) := by
            simp [Store.setState, hr]
          simp [runUpdates, hset] at h
      | ok p =>
          have hset : st.setState u =
              ({ state := shallowMerge st.state p,
                 history := st.history ++ [shallowMerge st.state p] }, none) := by
            simp [Store.setState, hr]
          have h2 : (runUpdates
              ({ state := shallowMerge st.state p,
                 history := st.history ++ [shallowMerge st.state p] } : Store) us).2 = none := by
            simpa [runUpdates, hset] using h
          have hfold := ih _ h2
          simpa [runUpdates, hset, foldUpdates, hr] using hfold

/-- C1: for every sequence of mutations issued through setState, getState
afterwards is the fold of the individual updates in call order; an object-form
update (replace=false) shallow-merges its listed fields and leaves every
unlisted field unchanged; a function-form update is applied to the previous
snapshot and its result shallow-merged; setFilter changes only the filter
field. -/
theorem C1_setState_fold (st : Store) (us : List Update) (f : Filter)
    (g : TodoState → Except String PartialState) (q : PartialState)
    (hrun : (runUpdates st us).2 = none)
    (hg : g st.getState = Except.ok q) :
    foldUpdates st.getState us = some ((runUpdates st us).1.getState)
    ∧ (∀ p : PartialState,
        (st.setState (Update.obj p)).1.getState = shallowMerge st.getState p)
    ∧ (∀ p : PartialState, p.todos = none →
        (shallowMerge st.getState p).todos = st.getState.todos)
    ∧ (∀ p : PartialState, p.filter = none →
        (shallowMerge st.getState p).filter = st.getState.filter)
    ∧ (∀ p : PartialState, p.isLoading = none →
        (shallowMerge st.getState p).isLoading = st.getState.isLoading)
    ∧ (∀ p : PartialState, p.error = none →
        (shallowMerge st.getState p).error = st.getState.error)
    ∧ (st.setState (Update.fn g)).1.getState = shallowMerge st.getState q
    ∧ (st.setState (Update.obj (setFilterPartial f))).1.getState
        = { st.getState with filter := f }
    ∧ setFilter f st.getState = { st.getState with filter := f } := by
  refine ⟨runUpdates_fold_aux us st hrun, ?_, ?_, ?_, ?_, ?_, ?_, ?_, ?_⟩
  · intro p
    simp [Store.setState, resolve, Store.getState]
  · intro p hp
    simp [shallowMerge, hp]
  · intro p hp
    simp [shallowMerge, hp]
  · intro p hp
    simp [shallowMerge, hp]
  · intro p hp
    simp [shallowMerge, hp]
  · simp [Store.setState, resolve, Store.getState] at hg ⊢
    simp [hg]
  · simp [Store.setState, resolve, Store.getState, setFilterPartial, shallowMerge]
  · simp [setFilter, setFilterPartial, shallowMerge]

/-- Witness for C1: a concrete successful two-step run (an object-form
setFilter then a function-form todo append) folds to the final state. -/
theorem C1_setState_fold_witness :
    foldUpdates (Store.getState { state := initialState, history := [] })
        [Update.obj (setFilterPartial Filter.active),
         Update.fn (fun s => Except.ok
           { todos := some (s.todos ++ [{ id := 1, text := "x", completed := false }]) })]
      = some ((runUpdates { state := initialState, history := [] }
          [Update.obj (setFilterPartial Filter.active),
           Update.fn (fun s => Except.ok
             { todos := some (s.todos ++ [{ id := 1, text := "x", completed := false }]) })]).1.getState) :=
  (C1_setState_fold { state := initialState, history := [] }
    [Update.obj (setFilterPartial Filter.active),
     Update.fn (fun s => Except.ok
       { todos := some (s.todos ++ [{ id := 1, text := "x", completed := false }]) })]
    Filter.completed (fun _ => Except.ok {}) {} rfl rfl).1

/-- C2: a function-form update that throws leaves the store — and hence
getState — exactly as it was, and the error is returned synchronously to the
caller of setState. -/
theorem C2_throwing_update (st : Store) (g : TodoState → Except String PartialState)
    (e : String) (hthrow : g st.getState = Except.error e) :
    st.setState (Update.fn g) = (st, some e)
    ∧ (st.setState (Update.fn g)).1.getState = st.getState := by
  have h : st.setState (Update.fn g) = (st, some e) := by
    simp [Store.getState] at hthrow
    simp [Store.setState, resolve, hthrow]
  exact ⟨h, by rw [h]⟩

/-- Witness for C2 at a concrete always-throwing update. -/
theorem C2_throwing_update_witness :
    Store.setState { state := initialState, history := [] }
        (Update.fn (fun _ => Except.error "boom"))
      = ({ state := initialState, history := [] }, some "boom") :=
  (C2_throwing_update { state := initialState, history := [] }
    (fun _ => Except.error "boom") "boom" rfl).1

/-- A notification pass treats each subscription independently. -/
theorem notifyAll_eq_map {V : Type} (next : TodoState) (subs : List (Subscription V)) :
    notifyAll next subs = subs.map (notifyStep next) := by
  induction subs with
  | nil => rfl
  | cons a l ih => simp [notifyAll, ih]

/-- C3: in the notification pass after a completed mutation, each subscription
is handled from its own entry alone (per-subscription memory); its callback
runs exactly once when the projected value differs from the cached value per
its equality function and zero times otherwise; and when the cached value is
current for the previous state and the selector's slice is untouched by the
mutation, the subscription is not notified at all. -/
theorem C3_selector_gated {V : Type} (next prev : TodoState) (sub : Subscription V)
    (subs : List (Subscription V)) (i : Nat)
    (hcache : sub.eqFn sub.lastValue (sub.selector prev) = true) :
    (notifyAll next subs)[i]? = (subs[i]?).map (notifyStep next)
    ∧ (notifyStep next sub).2.length
        = (if sub.eqFn sub.lastValue (sub.selector next) then 0 else 1)
    ∧ (sub.selector next = sub.selector prev → (notifyStep next sub).2 = []) := by
  refine ⟨?_, ?_, ?_⟩
  · simp [notifyAll_eq_map]
  · by_cases hb : sub.eqFn sub.lastValue (sub.selector next) <;> simp [notifyStep, hb]
  · intro hsel
    simp [notifyStep, hsel, hcache]

/-- Witness for C3: a filter-selector subscription with an up-to-date cache is
not notified by addTodo, which mutates only the todos slice. -/
theorem C3_selector_gated_witness :
    (notifyStep (addTodo 1 "Buy milk" initialState)
        ({ selector := fun s => s.filter, eqFn := fun a b => a == b,
           lastValue := Filter.all } : Subscription Filter)).2 = [] :=
  (C3_selector_gated (addTodo 1 "Buy milk" initialState) initialState
    { selector := fun s => s.filter, eqFn := fun a b => a == b, lastValue := Filter.all }
    [] 0 (by decide)).2.2 (by decide)

/-- C4: the persisted envelope depends only on the todos and filter fields
(never on isLoading or error), and a fresh store rehydrated from it recovers
todos and filter while isLoading and error keep the initializer defaults false
and null. -/
theorem C4_persist_roundtrip (s s2 : TodoState)
    (htodos : s.todos = s2.todos) (hfilter : s.filter = s2.filter) :
    partialize s = partialize s2
    ∧ (rehydrate initialState (partialize s)).todos = s.todos
    ∧ (rehydrate initialState (partialize s)).filter = s.filter
    ∧ (rehydrate initialState (partialize s)).isLoading = initialState.isLoading
    ∧ (rehydrate initialState (partialize s)).error = initialState.error
    ∧ initialState.isLoading = false ∧ initialState.error = none := by
  refine ⟨?_, rfl, rfl, rfl, rfl, rfl, rfl⟩
  simp [partialize, htodos, hfilter]

/-- Witness for C4: two states agreeing on todos and filter but with different
transient fields produce the same envelope, and rehydration restores the
persisted fields with default transients. -/
theorem C4_persist_roundtrip_witness :
    partialize { todos := [{ id := 1, text := "a", completed := false }],
                 filter := Filter.active, isLoading := true, error := some "x" }
      = partialize { todos := [{ id := 1, text := "a", completed := false }],
                     filter := Filter.active, isLoading := false, error := none }
    ∧ (rehydrate initialState (partialize
        { todos := [{ id := 1, text := "a", completed := false }],
          filter := Filter.active, isLoading := true, error := some "x" })).todos
      = [{ id := 1, text := "a", completed := false }] := by
  have h := C4_persist_roundtrip
    { todos := [{ id := 1, text := "a", completed := false }],
      filter := Filter.active, isLoading := true, error := some "x" }
    { todos := [{ id := 1, text := "a", completed := false }],
      filter := Filter.active, isLoading := false, error := none } rfl rfl
  exact ⟨h.1, h.2.1⟩

/-- C5: N mutations (N at least 1) all within debounceMs of each other produce
exactly one write, carrying the projection of the state after the Nth
mutation — intermediate projections are never written. -/
theorem C5_debounce_coalesce (D : Nat) (last : Option PersistedPartial) :
    ∀ (trace : List (Nat × PersistedPartial)) (tN : Nat) (pN : PersistedPartial),
      trace.getLast? = some (tN, pN) →
      List.Chain' (fun a b => b.1 - a.1 ≤ D) trace →
      last ≠ some pN →
      debouncedWrites D last trace = [pN] := by
  intro trace
  induction trace with
  | nil =>
      intro tN pN h _ _
      simp at h
  | cons hd tl ih =>
      intro tN pN hlast hgap hne
      cases tl with
      | nil =>
          obtain ⟨t, p⟩ := hd
          simp [List.getLast?_singleton, Prod.mk.injEq] at hlast
          obtain ⟨h1, h2⟩ := hlast
          subst h1
          subst h2
          simp [debouncedWrites, hne]
      | cons hd2 tl2 =>
          obtain ⟨t1, p1⟩ := hd
          obtain ⟨t2, p2⟩ := hd2
          have hgap1 : t2 - t1 ≤ D := (List.chain'_cons.mp hgap).1
          have hgap2 : List.Chain' (fun a b => b.1 - a.1 ≤ D) ((t2, p2) :: tl2) :=
            (List.chain'_cons.mp hgap).2
          have hlast2 : ((t2, p2) :: tl2).getLast? = some (tN, pN) := by
            simpa [List.getLast?_cons_cons] using hlast
          have hrec := ih tN pN hlast2 hgap2 hne
          simpa [debouncedWrites, hgap1] using hrec

/-- Witness for C5: three mutations 50ms and 70ms apart under debounceMs = 100
yield the single write of the last projection. -/
theorem C5_debounce_coalesce_witness :
    debouncedWrites 100 none
        [(0, { todos := [], filter := Filter.all }),
         (50, { todos := [{ id := 1, text := "a", completed := false }], filter := Filter.all }),
         (120, { todos := [{ id := 1, text := "a", completed := false }], filter := Filter.active })]
      = [{ todos := [{ id := 1, text := "a", completed := false }], filter := Filter.active }] :=
  C5_debounce_coalesce 100 none
    [(0, { todos := [], filter := Filter.all }),
     (50, { todos := [{ id := 1, text := "a", completed := false }], filter := Filter.all }),
     (120, { todos := [{ id := 1, text := "a", completed := false }], filter := Filter.active })]
    120 { todos := [{ id := 1, text := "a", completed := false }], filter := Filter.active }
    (by decide) (by simp [List.chain'_cons]) (by decide)

end ZustandTodo
